import Mathlib

/-!
Verification development for the Heimdall parental-control system.

Shallow embedding of the parts of the code base relevant to the checked
claims:

* `agents/windows/agent/offline_cache.py` — SQLite-backed offline queue
  and rules cache of the Windows agent (`OfflineCache`).
* `agents/windows/agent/main.py` — WebSocket message dispatch
  (`HeimdallAgent._on_ws_message`) and the TOTP entry callback
  (`HeimdallAgent._on_totp_entered`).
* `agents/windows/agent/blocker.py` — process termination
  (`AppBlocker.kill_process`).
* `backend/app/services/tan_service.py` — TAN redemption validation
  (`validate_tan_redemption`).
* `backend/app/services/rule_push_service.py` — rule push messages.
* `backend/app/services/rule_engine.py` — policy resolution
  (`_compute_current_rules`, `get_today_day_type`).

Machine-level conventions: UUIDs are abstracted to `Nat` identifiers,
instants are seconds since the epoch (`Nat` for the backend, which only
compares and floors them; `Int` where arithmetic may go negative), dates
are day numbers since 1970-01-01 (a Thursday, so Python's
`date.weekday()` is `(d + 3) % 7`), and JSON values are the inductive
type `JVal`.
-/

namespace Heimdall

/-- JSON-like values, used for payloads that the Python code treats as
opaque JSON (`dict` results, `time_windows` entries, …). -/
inductive JVal where
  | null
  | b (v : Bool)
  | i (v : Int)
  | s (v : String)
  | arr (vs : List JVal)
  | obj (fs : List (String × JVal))

/-! ## Offline cache (`agents/windows/agent/offline_cache.py`)

The SQLite tables are modelled as in-memory lists.  `pending_events`
rows keep their `AUTOINCREMENT` id (starting at 1), the stored payload
text, the event type and the `synced` flag.  The single `cached_rules`
row (`id = 1`) is an `Option String`.  `json.dumps` / `json.loads` from
the Python standard library are not part of this repository, so the
embedding is parameterised by an encoder and a decoder. -/

structure PendingRow where
  id : Nat
  payload : String
  eventType : String
  synced : Bool

structure CacheState where
  rows : List PendingRow
  nextId : Nat
  cachedRules : Option String

/-- A freshly created database: no pending events, `AUTOINCREMENT`
starts at 1, no `cached_rules` row. -/
def initialCache : CacheState := { rows := [], nextId := 1, cachedRules := none }

/-- `OfflineCache._insert_event`: serialise the payload and append a row
with the next id and `synced = 0`. -/
def insertEvent (dumps : α → String) (st : CacheState) (payload : α)
    (eventType : String) : CacheState :=
  { st with
    rows := st.rows ++
      [{ id := st.nextId, payload := dumps payload,
         eventType := eventType, synced := false }],
    nextId := st.nextId + 1 }

/-- `OfflineCache.queue_usage_event`. -/
def queueUsageEvent (dumps : α → String) (st : CacheState) (payload : α) : CacheState :=
  insertEvent dumps st payload "usage_event"

/-- `OfflineCache.queue_heartbeat`. -/
def queueHeartbeat (dumps : α → String) (st : CacheState) (payload : α) : CacheState :=
  insertEvent dumps st payload "heartbeat"

/-- Insert a row into a list kept in ascending-id order (model of the SQL
`ORDER BY id ASC`). -/
def insertById (x : PendingRow) : List PendingRow → List PendingRow
  | [] => [x]
  | y :: ys => if x.id < y.id then x :: y :: ys else y :: insertById x ys

/-- Sort rows by ascending id (model of the SQL `ORDER BY id ASC`). -/
def sortById : List PendingRow → List PendingRow
  | [] => []
  | x :: xs => insertById x (sortById xs)

/-- `OfflineCache.get_pending_events`: select the unsynced rows in
ascending-id order, apply the `LIMIT`, deserialise each payload and skip
rows whose payload fails to parse (the `json.JSONDecodeError` branch
logs and `continue`s). -/
def getPendingEvents (loads : String → Option α) (st : CacheState)
    (limit : Nat) : List (Nat × String × α) :=
  ((sortById (st.rows.filter (fun r => !r.synced))).take limit).filterMap
    (fun r => (loads r.payload).map (fun p => (r.id, r.eventType, p)))

/-- `OfflineCache.mark_synced_batch`: set `synced = 1` on every row whose
id is in the batch (the SQL `UPDATE … WHERE id IN (…)`). -/
def markSyncedBatch (st : CacheState) (eventIds : List Nat) : CacheState :=
  { st with
    rows := st.rows.map
      (fun r => if eventIds.contains r.id then { r with synced := true } else r) }

/-- `OfflineCache.cache_rules`: upsert the single `id = 1` row with the
serialised rules snapshot. -/
def cacheRules (dumps : β → String) (st : CacheState) (rules : β) : CacheState :=
  { st with cachedRules := some (dumps rules) }

/-- `OfflineCache.get_cached_rules`: return the parsed rules of the
single cached row, or `none` when there is no row; a parse failure
(`json.JSONDecodeError`) is caught and also yields `none`.  The decoder
is modelled as `Except`-valued so that the caught exception is visible;
the function itself is total (it never propagates the error). -/
def getCachedRules (loadsE : String → Except String β) (st : CacheState) : Option β :=
  match st.cachedRules with
  | none => none
  | some s =>
    match loadsE s with
    | .ok v => some v
    | .error _ => none

/-- C10 -- `get_cached_rules` never raises: it returns the parsed rules
dictionary when the single `cached_rules` row exists and holds valid
JSON, and returns `none` both when no row has ever been cached and when
the stored text fails to parse as JSON.  (Totality — "never raises" — is
expressed by the return type `Option β`: the decoder's error is caught
and never propagated.) -/
theorem c10_get_cached_rules_total {β : Type} (loadsE : String → Except String β)
    (st : CacheState) :
    (st.cachedRules = none → getCachedRules loadsE st = none)
    ∧ (∀ s e, st.cachedRules = some s → loadsE s = .error e →
        getCachedRules loadsE st = none)
    ∧ (∀ s v, st.cachedRules = some s → loadsE s = .ok v →
        getCachedRules loadsE st = some v) := by
  refine ⟨?_, ?_, ?_⟩
  · intro h
    simp [getCachedRules, h]
  · intro s e hs he
    simp [getCachedRules, hs, he]
  · intro s v hs hv
    simp [getCachedRules, hs, hv]

/-- Witness for C10: a cache whose row holds the text "42" with a decoder
that parses it, one holding unparsable text, and an empty cache. -/
theorem c10_get_cached_rules_total_witness :
    getCachedRules (fun s => if s = "42" then Except.ok (42 : Nat) else Except.error "bad")
      { rows := [], nextId := 1, cachedRules := some "42" } = some 42
    ∧ getCachedRules (fun s => if s = "42" then Except.ok (42 : Nat) else Except.error "bad")
      { rows := [], nextId := 1, cachedRules := some "oops" } = none
    ∧ getCachedRules (fun s => if s = "42" then Except.ok (42 : Nat) else Except.error "bad")
      initialCache = none := by
  refine ⟨?_, ?_, ?_⟩
  · exact (c10_get_cached_rules_total _ _).2.2 "42" 42 rfl rfl
  · exact (c10_get_cached_rules_total _ _).2.1 "oops" "bad" rfl rfl
  · exact (c10_get_cached_rules_total _ _).1 rfl

/-! ### Queue round trip (claim C7)

A sequence of `queue_usage_event` / `queue_heartbeat` calls is modelled
as a list of `QueueOp`s folded over the initial cache state. -/

/-- One call to `queue_usage_event` or `queue_heartbeat`. -/
inductive QueueOp (α : Type) where
  | usage (p : α)
  | heartbeat (p : α)

def QueueOp.payload : QueueOp α → α
  | .usage p => p
  | .heartbeat p => p

/-- The `event_type` column value written by the corresponding queue call. -/
def QueueOp.kind : QueueOp α → String
  | .usage _ => "usage_event"
  | .heartbeat _ => "heartbeat"

def applyQueueOp (dumps : α → String) (st : CacheState) : QueueOp α → CacheState
  | .usage p => queueUsageEvent dumps st p
  | .heartbeat p => queueHeartbeat dumps st p

/-- The cache state after a sequence of queue calls on a fresh database. -/
def buildCache (dumps : α → String) (ops : List (QueueOp α)) : CacheState :=
  ops.foldl (applyQueueOp dumps) initialCache

/-- The row that a queue call inserts when the cursor is at id `i`. -/
def opRow (dumps : α → String) (i : Nat) (op : QueueOp α) : PendingRow :=
  { id := i, payload := dumps op.payload, eventType := op.kind, synced := false }

theorem applyQueueOp_eq (dumps : α → String) (st : CacheState) (op : QueueOp α) :
    applyQueueOp dumps st op =
      { rows := st.rows ++ [opRow dumps st.nextId op],
        nextId := st.nextId + 1, cachedRules := st.cachedRules } := by
  cases op <;> rfl

theorem foldl_applyQueueOp (dumps : α → String) :
    ∀ (ops : List (QueueOp α)) (st : CacheState),
      ops.foldl (applyQueueOp dumps) st =
        { rows := st.rows ++ (List.enumFrom st.nextId ops).map
            (fun p => opRow dumps p.1 p.2),
          nextId := st.nextId + ops.length,
          cachedRules := st.cachedRules }
  | [], st => by simp
  | op :: ops, st => by
    rw [List.foldl_cons, foldl_applyQueueOp dumps ops, applyQueueOp_eq]
    simp [List.enumFrom]
    omega

theorem buildCache_eq (dumps : α → String) (ops : List (QueueOp α)) :
    buildCache dumps ops =
      { rows := (List.enumFrom 1 ops).map (fun p => opRow dumps p.1 p.2),
        nextId := 1 + ops.length, cachedRules := none } := by
  rw [buildCache, foldl_applyQueueOp]
  rfl

theorem fst_le_of_mem_enumFrom {x : Nat × β} :
    ∀ {l : List β} {n : Nat}, x ∈ List.enumFrom n l → n ≤ x.1
  | [], _, h => by simp [List.enumFrom] at h
  | _ :: l, n, h => by
    rw [List.enumFrom] at h
    rcases List.mem_cons.mp h with h | h
    · subst h; exact Nat.le_refl n
    · exact Nat.le_of_succ_le (fst_le_of_mem_enumFrom h)

theorem enumFrom_pairwise_fst :
    ∀ (l : List β) (n : Nat),
      (List.enumFrom n l).Pairwise (fun a b => a.1 < b.1)
  | [], _ => by simp [List.enumFrom]
  | x :: l, n => by
    rw [List.enumFrom]
    refine List.Pairwise.cons (fun y hy => ?_) (enumFrom_pairwise_fst l (n + 1))
    exact Nat.lt_of_succ_le (fst_le_of_mem_enumFrom hy)

theorem sortById_eq_of_sorted :
    ∀ {l : List PendingRow}, l.Pairwise (fun a b => a.id < b.id) → sortById l = l
  | [], _ => rfl
  | x :: xs, h => by
    rcases List.pairwise_cons.mp h with ⟨hx, hxs⟩
    rw [sortById, sortById_eq_of_sorted hxs]
    cases xs with
    | nil => rfl
    | cons y ys =>
      rw [insertById, if_pos (hx y (List.mem_cons_self y ys))]

theorem insertById_perm (x : PendingRow) :
    ∀ (l : List PendingRow), (insertById x l).Perm (x :: l)
  | [] => List.Perm.refl _
  | y :: ys => by
    rw [insertById]
    split
    · exact List.Perm.refl _
    · exact ((insertById_perm x ys).cons y).trans (List.Perm.swap x y ys)

theorem sortById_perm : ∀ (l : List PendingRow), (sortById l).Perm l
  | [] => List.Perm.refl _
  | x :: xs =>
    (insertById_perm x (sortById xs)).trans ((sortById_perm xs).cons x)

theorem filterMap_eq_map_of_forall {f : α → Option β} {g : α → β} :
    ∀ {l : List α}, (∀ a ∈ l, f a = some (g a)) → l.filterMap f = l.map g
  | [], _ => rfl
  | a :: l, h => by
    rw [List.filterMap_cons, h a (List.mem_cons_self a l), List.map_cons,
      filterMap_eq_map_of_forall (fun b hb => h b (List.mem_cons_of_mem a hb))]

/-- Every event returned after `mark_synced_batch ids` has an id outside
`ids`: marked rows carry `synced = 1` and the `WHERE synced = 0` filter
excludes them. -/
theorem getPending_markSynced_disjoint (loads : String → Option α)
    (st : CacheState) (ids : List Nat) (lim : Nat) :
    ∀ e ∈ getPendingEvents loads (markSyncedBatch st ids) lim, e.1 ∉ ids := by
  intro e he
  rw [getPendingEvents] at he
  rcases List.mem_filterMap.mp he with ⟨r, hr, hF⟩
  have hr' : r ∈ sortById ((markSyncedBatch st ids).rows.filter (fun r => !r.synced)) :=
    List.mem_of_mem_take hr
  have hr'' : r ∈ (markSyncedBatch st ids).rows.filter (fun r => !r.synced) :=
    (sortById_perm _).mem_iff.mp hr'
  have hsync : r.synced = false := by
    have := List.of_mem_filter hr''
    simpa using this
  have hmem : r ∈ (markSyncedBatch st ids).rows := List.mem_of_mem_filter hr''
  rw [markSyncedBatch] at hmem
  rcases List.mem_map.mp hmem with ⟨r0, _, hmark⟩
  have hid : e.1 = r.id := by
    rcases Option.map_eq_some'.mp hF with ⟨p, _, hp⟩
    rw [← hp]
  by_cases hc : ids.contains r0.id
  · rw [if_pos hc] at hmark
    rw [← hmark] at hsync
    simp at hsync
  · rw [if_neg hc] at hmark
    subst hmark
    rw [hid]
    intro habs
    exact hc (List.elem_eq_true_of_mem habs)

/-- C7 -- offline-cache round trip: after any sequence of
`queue_usage_event` / `queue_heartbeat` calls whose payloads survive the
JSON round trip, `get_pending_events` returns exactly the queued
payloads unchanged, in FIFO order of ascending id (ids 1, 2, …),
restricted to unsynced rows and capped at the limit; and after
`mark_synced_batch` of the returned ids, none of those events is
returned again. -/
theorem c7_offline_round_trip {α : Type} (dumps : α → String)
    (loads : String → Option α) (hround : ∀ p, loads (dumps p) = some p)
    (ops : List (QueueOp α)) (limit limit2 : Nat) :
    getPendingEvents loads (buildCache dumps ops) limit
      = ((List.enumFrom 1 ops).map (fun q => (q.1, q.2.kind, q.2.payload))).take limit
    ∧ ∀ e ∈ getPendingEvents loads
        (markSyncedBatch (buildCache dumps ops)
          ((getPendingEvents loads (buildCache dumps ops) limit).map (fun e => e.1)))
        limit2,
      e.1 ∉ (getPendingEvents loads (buildCache dumps ops) limit).map (fun e => e.1) := by
  constructor
  · rw [getPendingEvents, buildCache_eq]
    have hall : ((List.enumFrom 1 ops).map (fun p => opRow dumps p.1 p.2)).filter
        (fun r => !r.synced)
        = (List.enumFrom 1 ops).map (fun p => opRow dumps p.1 p.2) := by
      apply List.filter_eq_self.mpr
      intro r hr
      rcases List.mem_map.mp hr with ⟨p, _, hp⟩
      rw [← hp]
      rfl
    rw [hall, sortById_eq_of_sorted, ← List.map_take, ← List.map_take,
      List.filterMap_map, filterMap_eq_map_of_forall]
    · intro p _
      simp [opRow, Function.comp, hround]
    · rw [List.pairwise_map]
      exact enumFrom_pairwise_fst ops 1
  · exact getPending_markSynced_disjoint loads _ _ limit2

def c7DemoDumps : Bool → String := fun p => if p then "T" else "F"

def c7DemoLoads : String → Option Bool := fun s =>
  if s = "T" then some true else if s = "F" then some false else none

def c7DemoOps : List (QueueOp Bool) :=
  [.usage true, .heartbeat false, .usage true]

/-- Witness for C7: three queued events, limit 2 — the first two come
back with ids 1 and 2 and their payloads intact. -/
theorem c7_offline_round_trip_witness :
    (∀ p : Bool, c7DemoLoads (c7DemoDumps p) = some p)
    ∧ getPendingEvents c7DemoLoads (buildCache c7DemoDumps c7DemoOps) 2
        = [(1, "usage_event", true), (2, "heartbeat", false)] := by
  refine ⟨by decide, ?_⟩
  rw [(c7_offline_round_trip c7DemoDumps c7DemoLoads (by decide) c7DemoOps 2 5).1]
  rfl

/-! ## Rule push messages (`backend/app/services/rule_push_service.py`)

`push_rules_to_child_devices` and `push_rules_to_device` both build the
WebSocket message `{"type": "rules_updated", "rules": rules}`. -/

/-- The message dict built by the rule push service. -/
def rulesUpdatedMessage (rules : JVal) : List (String × JVal) :=
  [("type", .s "rules_updated"), ("rules", rules)]

/-! ## Agent WebSocket dispatch (`agents/windows/agent/main.py`,
`HeimdallAgent._on_ws_message`)

An incoming message is a dict read with `msg.get(...)`; the handler's
observable effect on each branch is summarised as an `AgentAction`. -/

structure WsMessage where
  msgType : Option JVal
  rules : Option JVal
  appGroupId : Option JVal

/-- The effect of one `_on_ws_message` call. -/
inductive AgentAction where
  /-- `self._apply_rules(rules)` followed by `self._cache.cache_rules(rules)`. -/
  | applyAndCacheRules (rules : JVal)
  /-- `self._blocker.block_group(group_id)` plus immediate enforcement. -/
  | blockApp (groupId : JVal)
  /-- `self._blocker.unblock_group(group_id)`. -/
  | unblockApp (groupId : JVal)
  /-- `await self._fetch_and_cache_rules()` (the `tan_redeemed` branch). -/
  | refreshRules
  /-- `pong` / `heartbeat_ack` / `ack`: nothing to do. -/
  | acknowledged
  /-- The final `else`: only a debug log, no rules applied, no cache write. -/
  | unhandled (msgType : JVal)

/-- Python `==` between a JSON value and a string literal: true exactly
for the equal string. -/
def JVal.eqStr : JVal → String → Bool
  | .s v, t => v == t
  | _, _ => false

/-- `HeimdallAgent._on_ws_message`, branch by branch. -/
def onWsMessage (msg : WsMessage) : AgentAction :=
  let msgType := msg.msgType.getD (.s "")
  if msgType.eqStr "rule_update" then
    .applyAndCacheRules (msg.rules.getD (.obj []))
  else if msgType.eqStr "block_app" then
    .blockApp (msg.appGroupId.getD (.s ""))
  else if msgType.eqStr "unblock_app" then
    .unblockApp (msg.appGroupId.getD (.s ""))
  else if msgType.eqStr "tan_redeemed" then
    .refreshRules
  else if msgType.eqStr "pong" || msgType.eqStr "heartbeat_ack" || msgType.eqStr "ack" then
    .acknowledged
  else
    .unhandled msgType

/-- C1 -- the server's rule push emits messages of type `rules_updated`
(`push_rules_to_child_devices`), but the agent dispatch only applies and
caches rules for the distinct string `rule_update`; a pushed
`rules_updated` message falls through every branch into the unhandled
`else`, so the rules in it are neither applied nor written to the offline
cache.  The claim that dispatch applies rules for every `rules_updated`
message therefore fails on the code: the two components disagree on the
message type string. -/
theorem c1_rules_updated_unhandled :
    List.lookup "type" (rulesUpdatedMessage (.obj [])) = some (.s "rules_updated")
    ∧ onWsMessage { msgType := some (.s "rules_updated"),
                    rules := some (.obj []), appGroupId := none }
        = .unhandled (.s "rules_updated")
    ∧ onWsMessage { msgType := some (.s "rule_update"),
                    rules := some (.obj []), appGroupId := none }
        = .applyAndCacheRules (.obj []) := by
  refine ⟨rfl, ?_, ?_⟩ <;> rfl

/-! ## Process termination (`agents/windows/agent/blocker.py`,
`AppBlocker.kill_process`)

The interactions with `psutil` are modelled as an outcome oracle: what
each call would report for the given pid at that moment. -/

/-- Outcome of `psutil.Process(pid)`. -/
inductive PsLookup where
  | found
  | noSuchProcess

/-- Outcome of `proc.terminate()`. -/
inductive PsTerminate where
  | delivered
  | noSuchProcess
  | accessDenied

/-- Outcome of `proc.wait(timeout=graceful_timeout)`. -/
inductive PsWait where
  | exited
  | timeoutExpired

/-- Outcome of the `proc.kill(); proc.wait(timeout=2.0)` pair. -/
inductive PsKill where
  | killedAndExited
  | noSuchProcess
  | accessDenied
  | timeoutExpired

structure ProcOutcome where
  lookup : PsLookup
  term : PsTerminate
  gracefulWait : PsWait
  forceKill : PsKill

/-- `AppBlocker.kill_process`: lookup, graceful terminate, wait, then
force kill — returning the boolean the source returns on each path. -/
def killProcess (o : ProcOutcome) : Bool :=
  match o.lookup with
  | .noSuchProcess => true
  | .found =>
    match o.term with
    | .noSuchProcess => false
    | .accessDenied => false
    | .delivered =>
      match o.gracefulWait with
      | .exited => true
      | .timeoutExpired =>
        match o.forceKill with
        | .killedAndExited => true
        | .noSuchProcess => false
        | .accessDenied => false
        | .timeoutExpired => false

/-- C6 -- evaluation at the failing input: when the process exits
between the initial pid lookup and the `terminate()` call (so
`terminate` raises `NoSuchProcess`), `kill_process` returns `false`
even though the process is no longer alive — contradicting its own
docstring ("Returns True if the process was successfully killed (or had
already exited)") and the spec.  A missing process at the initial
lookup does return `true` as claimed. -/
theorem c6_kill_process_eval :
    killProcess { lookup := .found, term := .noSuchProcess,
                  gracefulWait := .exited, forceKill := .killedAndExited } = false
    ∧ killProcess { lookup := .noSuchProcess, term := .delivered,
                    gracefulWait := .exited, forceKill := .killedAndExited } = true := by
  exact ⟨rfl, rfl⟩

/-! ## TOTP entry (`agents/windows/agent/main.py`,
`HeimdallAgent._on_totp_entered`) -/

/-- The cached `totp_config` dict (all reads use `.get` with defaults,
so every field is optional). -/
structure CachedTotpConfig where
  secret : Option String
  mode : Option String
  tanMinutes : Option Int
  overrideMinutes : Option Int

/-- `totp_cfg = self._totp_config or {}`: the empty dict has no keys. -/
def defaultCachedTotp : CachedTotpConfig :=
  { secret := none, mode := none, tanMinutes := none, overrideMinutes := none }

/-- The agent state touched by `_on_totp_entered`. -/
structure AgentOverrideState where
  totpConfig : Option CachedTotpConfig
  blockedGroups : List String
  totpOverrideUntil : Option Int

/-- `for group_id in list(self._blocker.blocked_groups):
self._blocker.unblock_group(group_id)` — erase each member of a snapshot
of the set from the set. -/
def unblockAllLoop (blocked : List String) : List String :=
  blocked.foldl (fun bs g => bs.erase g) blocked

/-- `HeimdallAgent._on_totp_entered` after the code verification:
choose the duration from the cached config, set the local override
deadline, unblock all blocked groups.  An invalid code leaves the state
unchanged (only an error dialog is shown). -/
def onTotpEntered (verifyOk : Bool) (now : Int) (st : AgentOverrideState) :
    AgentOverrideState :=
  if !verifyOk then st
  else
    let totpCfg := st.totpConfig.getD defaultCachedTotp
    let mode := totpCfg.mode.getD "tan"
    let minutes : Int :=
      if mode = "override" then totpCfg.overrideMinutes.getD 30
      else totpCfg.tanMinutes.getD 30
    { st with
      totpOverrideUntil := some (now + 60 * minutes),
      blockedGroups := unblockAllLoop st.blockedGroups }

theorem foldl_erase_self : ∀ (l : List String),
    List.foldl (fun bs g => bs.erase g) l l = []
  | [] => rfl
  | a :: t => by
    rw [List.foldl_cons, List.erase_cons_head]
    exact foldl_erase_self t

theorem unblockAllLoop_eq_nil (blocked : List String) :
    unblockAllLoop blocked = [] :=
  foldl_erase_self blocked

/-- C9 -- on a valid TOTP code the duration is `override_minutes` only
when the cached mode equals "override"; for any other mode value and for
a missing mode (defaulting to "tan") it is `tan_minutes`; 30 minutes is
the fallback when the chosen field is absent; `totp_override_until`
becomes now plus that duration and all blocked groups are unblocked. -/
theorem c9_totp_override (st : AgentOverrideState) (now : Int) :
    (onTotpEntered true now st).blockedGroups = []
    ∧ ((st.totpConfig.getD defaultCachedTotp).mode = some "override" →
        (onTotpEntered true now st).totpOverrideUntil
          = some (now + 60 * ((st.totpConfig.getD defaultCachedTotp).overrideMinutes.getD 30)))
    ∧ (∀ m, (st.totpConfig.getD defaultCachedTotp).mode = some m → m ≠ "override" →
        (onTotpEntered true now st).totpOverrideUntil
          = some (now + 60 * ((st.totpConfig.getD defaultCachedTotp).tanMinutes.getD 30)))
    ∧ ((st.totpConfig.getD defaultCachedTotp).mode = none →
        (onTotpEntered true now st).totpOverrideUntil
          = some (now + 60 * ((st.totpConfig.getD defaultCachedTotp).tanMinutes.getD 30))) := by
  refine ⟨?_, ?_, ?_, ?_⟩
  · simp [onTotpEntered, unblockAllLoop_eq_nil]
  · intro hmode
    simp [onTotpEntered, hmode]
  · intro m hmode hne
    simp [onTotpEntered, hmode, hne]
  · intro hmode
    simp [onTotpEntered, hmode]

/-- Witness for C9: cached mode "both" with no `tan_minutes` field —
the 30-minute fallback applies and the override ends 1800 seconds after
now; a second instance exercises the "override" mode. -/
theorem c9_totp_override_witness :
    (onTotpEntered true 0
      { totpConfig := some { secret := some "S", mode := some "both",
                             tanMinutes := none, overrideMinutes := some 45 },
        blockedGroups := ["g1", "g2"],
        totpOverrideUntil := none }).totpOverrideUntil = some 1800
    ∧ (onTotpEntered true 0
      { totpConfig := some { secret := some "S", mode := some "override",
                             tanMinutes := none, overrideMinutes := some 45 },
        blockedGroups := ["g1", "g2"],
        totpOverrideUntil := none }).totpOverrideUntil = some 2700 := by
  constructor
  · exact (c9_totp_override _ 0).2.2.1 "both" rfl (by decide)
  · exact (c9_totp_override _ 0).2.1 rfl

/-! ## TAN redemption validation (`backend/app/services/tan_service.py`,
`validate_tan_redemption`)

The six policy checks run in order and the first violation raises an
HTTP 400 with a specific message; this is modelled as an
`Except TanRejection Unit`.  The two aggregate SQL queries (today's
redeemed-TAN count and today's redeemed bonus-minute sum for the child)
enter the model as context fields holding the query results.
`validate_tan_redemption` itself never mutates the TAN; only the later
`redeem_tan` does, and the router calls it only after validation
succeeds. -/

/-- The `HTTPException` raised by each failed policy check (all 400). -/
inductive TanRejection where
  | notActive (currentStatus : String)
  | expired
  | dailyLimitReached
  | bonusLimitExceeded (total : Int)
  | groupNotAllowed (groupName : String)
  | blackout
deriving DecidableEq

structure TanRecord where
  status : String
  expiresAt : Nat
  valueMinutes : Option Int
  scopeGroups : List Nat
deriving DecidableEq

structure AppGroupRow where
  id : Nat
  name : String
  tanAllowed : Bool
deriving DecidableEq

/-- The data the validation reads besides the TAN itself: the current
instant, the current UTC time of day in minutes (`now.time()`), the two
SQL aggregates over today's redeemed TANs of the child, and the
`app_groups` table for the scope lookups. -/
structure TanValCtx where
  nowInstant : Nat
  nowMinutes : Nat
  redeemedTodayCount : Nat
  bonusRedeemedToday : Int
  appGroups : List AppGroupRow

def defaultMaxTansPerDay : Nat := 3
def defaultMaxBonusMinutesPerDay : Int := 90
/-- `BLACKOUT_START = time(21, 0)`, in minutes since midnight. -/
def blackoutStartMin : Nat := 21 * 60
/-- `BLACKOUT_END = time(6, 0)`, in minutes since midnight. -/
def blackoutEndMin : Nat := 6 * 60

/-- Check 6's condition:
`current_time >= BLACKOUT_START or current_time < BLACKOUT_END`,
evaluated on `now.time()` — the UTC wall clock. -/
def blackoutHit (nowTimeMinutes : Nat) : Bool :=
  decide (nowTimeMinutes ≥ blackoutStartMin) || decide (nowTimeMinutes < blackoutEndMin)

/-- The check-5 loop: for each scoped group id in order, look the group
up and stop at the first one found with `tan_allowed` false. -/
def findDisallowedGroup (groups : List AppGroupRow) : List Nat → Option AppGroupRow
  | [] => none
  | gid :: rest =>
    match groups.find? (fun g => g.id == gid) with
    | some g => if !g.tanAllowed then some g else findDisallowedGroup groups rest
    | none => findDisallowedGroup groups rest

/-- `validate_tan_redemption`: the six checks in source order. -/
def validateTanRedemption (ctx : TanValCtx) (tan : TanRecord) :
    Except TanRejection Unit :=
  if tan.status ≠ "active" then .error (.notActive tan.status)
  else if tan.expiresAt < ctx.nowInstant then .error .expired
  else if ctx.redeemedTodayCount ≥ defaultMaxTansPerDay then .error .dailyLimitReached
  else
    let bonusViolation : Option Int :=
      match tan.valueMinutes with
      | some v =>
        if ctx.bonusRedeemedToday + v > defaultMaxBonusMinutesPerDay then
          some (ctx.bonusRedeemedToday + v)
        else none
      | none => none
    match bonusViolation with
    | some total => .error (.bonusLimitExceeded total)
    | none =>
      match findDisallowedGroup ctx.appGroups tan.scopeGroups with
      | some g => .error (.groupNotAllowed g.name)
      | none =>
        if blackoutHit ctx.nowMinutes then .error .blackout
        else .ok ()

/-- Counterexample to C3: an otherwise-valid TAN redeemed at an instant
exactly equal to its `expires_at` passes validation — the source rejects
only `expires_at < now`, so equality is not "expired" and the TAN's
redemption proceeds, contrary to the claim that it fails with
"expired". -/
theorem c3_expiry_boundary_counterexample :
    validateTanRedemption
      { nowInstant := 1000, nowMinutes := 720, redeemedTodayCount := 0,
        bonusRedeemedToday := 0, appGroups := [] }
      { status := "active", expiresAt := 1000, valueMinutes := none,
        scopeGroups := [] } = .ok ()
    ∧ (1000 : Nat) = 1000 := by
  exact ⟨rfl, rfl⟩

/-- C3 (amended) -- the expiry check is non-strict: for an active TAN,
validation fails with the "expired" error exactly when the redemption
instant is strictly later than `expires_at`; at an instant exactly equal
to `expires_at` the expiry check passes.  (Validation never mutates the
TAN: it is a pure function of the TAN and the context.) -/
theorem c3_expired_iff_strictly_past (ctx : TanValCtx) (tan : TanRecord)
    (hactive : tan.status = "active") :
    validateTanRedemption ctx tan = .error .expired
      ↔ tan.expiresAt < ctx.nowInstant := by
  rw [validateTanRedemption, if_neg (by simp [hactive])]
  constructor
  · intro h
    by_contra hlt
    rw [if_neg hlt] at h
    repeat' split at h
    all_goals simp at h
  · intro hlt
    rw [if_pos hlt]

/-- Witness for C3's amended theorem: an active TAN redeemed 1 second
after `expires_at` is rejected as expired. -/
theorem c3_expired_iff_strictly_past_witness :
    (("active" : String) = "active")
    ∧ (validateTanRedemption
        { nowInstant := 1001, nowMinutes := 720, redeemedTodayCount := 0,
          bonusRedeemedToday := 0, appGroups := [] }
        { status := "active", expiresAt := 1000, valueMinutes := none,
          scopeGroups := [] } = .error .expired
       ↔ (1000 : Nat) < 1001) := by
  exact ⟨rfl, c3_expired_iff_strictly_past _ _ rfl⟩

/-- Minutes on the family-local wall clock for a given UTC time of day
and a family UTC offset (e.g. +120 for Europe/Berlin in summer). -/
def familyLocalMinutes (utcMinutes : Nat) (tzOffsetMinutes : Int) : Nat :=
  ((utcMinutes + tzOffsetMinutes).emod 1440).toNat

/-- C4 -- the blackout check runs on the server's UTC clock, not the
family's timezone: at 19:30 UTC with a +120-minute family offset the
family-local time 21:30 lies inside the `[21:00, 06:00)` blackout
window, yet validation accepts the redemption because 19:30 UTC does
not.  This contradicts the claim (and the spec's stated intent) that
the blackout is evaluated on family-local time; the `Family` model's
`timezone` column is never consulted by `validate_tan_redemption`. -/
theorem c4_blackout_uses_utc :
    validateTanRedemption
      { nowInstant := 100, nowMinutes := 19 * 60 + 30, redeemedTodayCount := 0,
        bonusRedeemedToday := 0, appGroups := [] }
      { status := "active", expiresAt := 1000, valueMinutes := none,
        scopeGroups := [] } = .ok ()
    ∧ blackoutHit (familyLocalMinutes (19 * 60 + 30) 120) = true
    ∧ blackoutHit (19 * 60 + 30) = false := by
  refine ⟨rfl, ?_, ?_⟩ <;> decide

/-! ## Rule engine (`backend/app/services/rule_engine.py`)

`_compute_current_rules` resolves the active rules for a device.  The
database tables are in-memory lists; `scalar_one_or_none` single-row
queries become `List.find?`, `WHERE` clauses become `List.filter`, and
the `SUM` aggregate becomes a fold.  Dates are day numbers since
1970-01-01 (a Thursday), so Python's `date.weekday()` is
`(d + 3) % 7`; `now.date()` of a UTC instant in seconds is division by
86400.  The returned Python dict is an association list so that key
presence is part of the model. -/

structure Device where
  id : Nat
  childId : Nat
  status : String

structure ChildUser where
  id : Nat
  familyId : Nat
  totpEnabled : Bool
  totpSecret : Option String
  totpMode : String
  totpTanMinutes : Int
  totpOverrideMinutes : Int

structure DeviceCoupling where
  childId : Nat
  deviceIds : List Nat
  sharedBudget : Bool

structure TimeRule where
  childId : Nat
  active : Bool
  validFrom : Option Nat
  validUntil : Option Nat
  dayTypes : List String
  priority : Int
  timeWindows : List JVal
  groupLimits : List JVal
  dailyLimitMinutes : Option Int

structure UsageEventRow where
  deviceId : Nat
  startedAt : Nat
  durationSeconds : Nat

structure TanRow where
  id : Nat
  childId : Nat
  status : String
  tanType : String
  valueMinutes : Option Int
  valueUnlockUntil : Option Nat
  scopeGroups : Option (List Nat)
  scopeDevices : Option (List Nat)
  expiresAt : Nat

structure DayTypeOverrideRow where
  familyId : Nat
  date : Nat
  dayType : String

structure Db where
  devices : List Device
  users : List ChildUser
  couplings : List DeviceCoupling
  timeRules : List TimeRule
  usageEvents : List UsageEventRow
  tans : List TanRow
  dayTypeOverrides : List DayTypeOverrideRow

def secondsPerDay : Nat := 86400

/-- Python's `date.weekday()` for a day number since 1970-01-01
(Monday = 0; 1970-01-01 was a Thursday, weekday 3). -/
def pythonWeekday (d : Nat) : Nat := (d + 3) % 7

/-- `get_today_day_type`: a `DayTypeOverride` for the family and date
wins; otherwise Saturday/Sunday is "weekend" and the rest "weekday". -/
def getTodayDayType (db : Db) (familyId : Nat) (targetDate : Nat) : String :=
  match db.dayTypeOverrides.find?
      (fun o => o.familyId == familyId && o.date == targetDate) with
  | some o => o.dayType
  | none => if pythonWeekday targetDate ≥ 5 then "weekend" else "weekday"

/-- The `empty_result` dict of `_compute_current_rules` — note that it
has no `totp_config` key. -/
def emptyResult : List (String × JVal) :=
  [("day_type", .s "unknown"),
   ("time_windows", .arr []),
   ("group_limits", .arr []),
   ("daily_limit_minutes", .null),
   ("remaining_minutes", .null),
   ("active_tans", .arr []),
   ("coupled_devices", .arr []),
   ("shared_budget", .b false)]

def encodeOptInt : Option Int → JVal
  | none => .null
  | some v => .i v

/-- `[str(g) for g in xs] if xs else None` — `None` and the empty list
are both falsy, so only a non-empty list is serialised. -/
def encodeScopeList : Option (List Nat) → JVal
  | some (g :: gs) => .arr ((g :: gs).map (fun x => JVal.s (toString x)))
  | _ => .null

/-- The per-TAN dict built for `active_tans` (`str(...)` and
`isoformat()` become `toString`). -/
def tanToJson (tan : TanRow) : JVal :=
  .obj [("id", .s (toString tan.id)),
        ("type", .s tan.tanType),
        ("value_minutes", encodeOptInt tan.valueMinutes),
        ("value_unlock_until",
          match tan.valueUnlockUntil with
          | some t => .s (toString t)
          | none => .null),
        ("scope_groups", encodeScopeList tan.scopeGroups),
        ("scope_devices", encodeScopeList tan.scopeDevices),
        ("expires_at", .s (toString tan.expiresAt))]

/-- Stable insertion for the descending-priority sort
(`matching_rules.sort(key=lambda r: r.priority, reverse=True)`):
an element moves before the first strictly-smaller priority, keeping
the original order among equal priorities. -/
def insertPrioDesc (x : TimeRule) : List TimeRule → List TimeRule
  | [] => [x]
  | y :: ys => if y.priority ≤ x.priority then x :: y :: ys else y :: insertPrioDesc x ys

def sortByPriorityDesc : List TimeRule → List TimeRule
  | [] => []
  | x :: xs => insertPrioDesc x (sortByPriorityDesc xs)

/-- The `daily_limit_minutes` accumulator step of the rule loop: keep
the minimum of the non-null limits seen so far. -/
def minLimitStep (acc : Option Int) (r : TimeRule) : Option Int :=
  match r.dailyLimitMinutes with
  | none => acc
  | some v =>
    match acc with
    | none => some v
    | some a => some (min a v)

/-- The `for rule in matching_rules` loop: extend `time_windows` and
`group_limits` (extending by an empty list is the identity, which
matches the `if rule.time_windows:` truthiness guards) and fold the
daily limit. -/
def ruleLoop (sorted : List TimeRule) : List JVal × List JVal × Option Int :=
  sorted.foldl
    (fun acc r =>
      (acc.1 ++ r.timeWindows, acc.2.1 ++ r.groupLimits, minLimitStep acc.2.2 r))
    ([], [], none)

/-- `_compute_current_rules`. -/
def computeCurrentRules (db : Db) (deviceId : Nat) (now : Nat) : List (String × JVal) :=
  let today := now / secondsPerDay
  match db.devices.find? (fun d => d.id == deviceId) with
  | none => emptyResult
  | some device =>
    match db.users.find? (fun u => u.id == device.childId) with
    | none => emptyResult
    | some child =>
      let coupling := db.couplings.find? (fun c => c.childId == device.childId)
      let coupledPair : List Nat × Bool :=
        match coupling with
        | some c =>
          if c.deviceIds.contains deviceId then
            (c.deviceIds.filter (fun d => d != deviceId), c.sharedBudget)
          else ([], false)
        | none => ([], false)
      let dayType := getTodayDayType db child.familyId today
      let allRules := db.timeRules.filter (fun r =>
        r.childId == device.childId && r.active
          && (match r.validFrom with | none => true | some v => decide (v ≤ today))
          && (match r.validUntil with | none => true | some v => decide (today ≤ v)))
      let matchingRules := allRules.filter (fun r => r.dayTypes.contains dayType)
      let folded := ruleLoop (sortByPriorityDesc matchingRules)
      let dailyLimitMinutes := folded.2.2
      let remainingMinutes : Option Int :=
        match dailyLimitMinutes with
        | none => none
        | some lim =>
          let todayStart := today * secondsPerDay
          let devicesToCount :=
            match coupling with
            | some c => if coupledPair.2 then c.deviceIds else [deviceId]
            | none => [deviceId]
          let totalSeconds := (db.usageEvents.filter (fun e =>
            devicesToCount.contains e.deviceId && decide (todayStart ≤ e.startedAt))).foldl
            (fun acc e => acc + e.durationSeconds) 0
          let usedMinutes : Nat := totalSeconds / 60
          some (max 0 (lim - (usedMinutes : Int)))
      let tanList := (db.tans.filter (fun t =>
        t.childId == device.childId && t.status == "active"
          && decide (now < t.expiresAt))).map tanToJson
      let totpConfig : JVal :=
        match child.totpSecret with
        | some s =>
          if child.totpEnabled && s != "" then
            .obj [("enabled", .b true),
                  ("secret", .s s),
                  ("mode", .s child.totpMode),
                  ("tan_minutes", .i child.totpTanMinutes),
                  ("override_minutes", .i child.totpOverrideMinutes)]
          else .null
        | none => .null
      [("day_type", .s dayType),
       ("time_windows", .arr folded.1),
       ("group_limits", .arr folded.2.1),
       ("daily_limit_minutes", encodeOptInt dailyLimitMinutes),
       ("remaining_minutes", encodeOptInt remainingMinutes),
       ("active_tans", .arr tanList),
       ("coupled_devices", .arr (coupledPair.1.map (fun d => JVal.s (toString d)))),
       ("shared_budget", .b coupledPair.2),
       ("totp_config", totpConfig)]

/-! ### Lemmas about the rule loop and the priority sort -/

theorem insertPrioDesc_perm (x : TimeRule) :
    ∀ l : List TimeRule, (insertPrioDesc x l).Perm (x :: l)
  | [] => List.Perm.refl _
  | y :: ys => by
    rw [insertPrioDesc]
    split
    · exact List.Perm.refl _
    · exact ((insertPrioDesc_perm x ys).cons y).trans (List.Perm.swap x y ys)

theorem sortByPriorityDesc_perm : ∀ l : List TimeRule, (sortByPriorityDesc l).Perm l
  | [] => List.Perm.refl _
  | x :: xs =>
    (insertPrioDesc_perm x (sortByPriorityDesc xs)).trans
      ((sortByPriorityDesc_perm xs).cons x)

theorem ruleLoop_dailyLimit_aux :
    ∀ (l : List TimeRule) (a b : List JVal) (c : Option Int),
      (l.foldl
        (fun acc r =>
          (acc.1 ++ r.timeWindows, acc.2.1 ++ r.groupLimits, minLimitStep acc.2.2 r))
        (a, b, c)).2.2 = l.foldl minLimitStep c
  | [], _, _, _ => rfl
  | r :: l, a, b, c => by
    rw [List.foldl_cons, List.foldl_cons]
    exact ruleLoop_dailyLimit_aux l _ _ _

/-- The daily-limit component of the rule loop is the plain min fold. -/
theorem ruleLoop_dailyLimit (l : List TimeRule) :
    (ruleLoop l).2.2 = l.foldl minLimitStep none :=
  ruleLoop_dailyLimit_aux l [] [] none

/-- The min-fold step on the non-null limits themselves. -/
def optMinStep (acc : Option Int) (v : Int) : Option Int :=
  match acc with
  | none => some v
  | some a => some (min a v)

theorem foldl_minLimitStep :
    ∀ (l : List TimeRule) (acc : Option Int),
      l.foldl minLimitStep acc
        = (l.filterMap (fun r => r.dailyLimitMinutes)).foldl optMinStep acc
  | [], _ => rfl
  | r :: l, acc => by
    rw [List.foldl_cons, List.filterMap_cons]
    cases hd : r.dailyLimitMinutes with
    | none =>
      have h1 : minLimitStep acc r = acc := by
        cases acc <;> simp [minLimitStep, hd]
      rw [h1, foldl_minLimitStep l acc]
    | some v =>
      have h1 : minLimitStep acc r = optMinStep acc v := by
        cases acc <;> simp [minLimitStep, optMinStep, hd]
      rw [h1, foldl_minLimitStep l (optMinStep acc v)]
      rfl

theorem optMinStep_right_comm (acc : Option Int) (a b : Int) :
    optMinStep (optMinStep acc a) b = optMinStep (optMinStep acc b) a := by
  cases acc with
  | none => simp [optMinStep, min_comm]
  | some c => simp [optMinStep, min_right_comm]

theorem foldl_optMinStep_perm {xs ys : List Int} (h : xs.Perm ys) :
    ∀ acc, xs.foldl optMinStep acc = ys.foldl optMinStep acc := by
  induction h with
  | nil => intro acc; rfl
  | cons x _ ih =>
    intro acc
    rw [List.foldl_cons, List.foldl_cons, ih]
  | swap x y l =>
    intro acc
    rw [List.foldl_cons, List.foldl_cons, List.foldl_cons, List.foldl_cons,
      optMinStep_right_comm]
  | trans _ _ ih₁ ih₂ =>
    intro acc
    rw [ih₁, ih₂]

theorem foldl_optMinStep_some :
    ∀ (xs : List Int) (a : Int), xs.foldl optMinStep (some a) = some (xs.foldl min a)
  | [], _ => rfl
  | x :: xs, a => by
    rw [List.foldl_cons, List.foldl_cons]
    exact foldl_optMinStep_some xs (min a x)

/-- The min fold starting from `none` computes the minimum of the list
(`none` when the list is empty). -/
theorem foldl_optMinStep_eq_min? :
    ∀ xs : List Int, xs.foldl optMinStep none = xs.min?
  | [] => rfl
  | x :: xs => by
    rw [List.foldl_cons]
    exact foldl_optMinStep_some xs x

/-- The claim's selection of rules: belonging to the child, active,
date range containing today, and day types containing the resolved day
type. -/
def claimRuleMatches (childId : Nat) (dayType : String) (today : Nat)
    (r : TimeRule) : Bool :=
  r.childId == childId && r.active
    && (match r.validFrom with | none => true | some v => decide (v ≤ today))
    && (match r.validUntil with | none => true | some v => decide (today ≤ v))
    && r.dayTypes.contains dayType

theorem claimRuleMatches_eq (childId : Nat) (dayType : String) (today : Nat)
    (r : TimeRule) :
    (r.dayTypes.contains dayType &&
      (r.childId == childId && r.active
        && (match r.validFrom with | none => true | some v => decide (v ≤ today))
        && (match r.validUntil with | none => true | some v => decide (today ≤ v))))
      = claimRuleMatches childId dayType today r := by
  rw [claimRuleMatches, Bool.and_comm]

theorem lookup_daily_limit (a b c d e f g h i : JVal) :
    List.lookup "daily_limit_minutes"
      [("day_type", a), ("time_windows", b), ("group_limits", c),
       ("daily_limit_minutes", d), ("remaining_minutes", e), ("active_tans", f),
       ("coupled_devices", g), ("shared_budget", h), ("totp_config", i)]
      = some d := rfl

theorem lookup_totp_config (a b c d e f g h i : JVal) :
    List.lookup "totp_config"
      [("day_type", a), ("time_windows", b), ("group_limits", c),
       ("daily_limit_minutes", d), ("remaining_minutes", e), ("active_tans", f),
       ("coupled_devices", g), ("shared_budget", h), ("totp_config", i)]
      = some i := rfl

/-- C2 -- for every device and instant at which the device and its
child resolve, the `daily_limit_minutes` field of the resolved rules is
the minimum of the non-null `daily_limit_minutes` over exactly the
child's active, date-valid, day-type-matching rules (`List.min?` is
`none` — serialised as JSON null — when no such rule has a non-null
limit).  The descending-priority sort does not affect the minimum. -/
theorem c2_daily_limit_min (db : Db) (deviceId now : Nat) (device : Device)
    (child : ChildUser)
    (hdev : db.devices.find? (fun d => d.id == deviceId) = some device)
    (hchild : db.users.find? (fun u => u.id == device.childId) = some child) :
    List.lookup "daily_limit_minutes" (computeCurrentRules db deviceId now)
      = some (encodeOptInt
          (((db.timeRules.filter
              (claimRuleMatches device.childId
                (getTodayDayType db child.familyId (now / secondsPerDay))
                (now / secondsPerDay))).filterMap
            (fun r => r.dailyLimitMinutes)).min?)) := by
  simp only [computeCurrentRules, hdev, hchild]
  rw [lookup_daily_limit]
  refine congrArg (fun o => some (encodeOptInt o)) ?_
  rw [ruleLoop_dailyLimit, foldl_minLimitStep,
    foldl_optMinStep_perm ((sortByPriorityDesc_perm _).filterMap _),
    foldl_optMinStep_eq_min?, List.filter_filter]
  rw [List.filter_congr (fun r _ => claimRuleMatches_eq device.childId _ _ r)]

def demoDevice : Device := { id := 1, childId := 2, status := "revoked" }

def demoChild : ChildUser :=
  { id := 2, familyId := 3, totpEnabled := false, totpSecret := none,
    totpMode := "tan", totpTanMinutes := 30, totpOverrideMinutes := 45 }

def demoRuleA : TimeRule :=
  { childId := 2, active := true, validFrom := none, validUntil := none,
    dayTypes := ["weekday"], priority := 5, timeWindows := [], groupLimits := [],
    dailyLimitMinutes := some 60 }

def demoRuleB : TimeRule :=
  { childId := 2, active := true, validFrom := some 0, validUntil := some 100,
    dayTypes := ["weekday", "weekend"], priority := 1, timeWindows := [],
    groupLimits := [], dailyLimitMinutes := some 45 }

def demoDb : Db :=
  { devices := [demoDevice], users := [demoChild], couplings := [],
    timeRules := [demoRuleA, demoRuleB], usageEvents := [], tans := [],
    dayTypeOverrides := [] }

/-- Witness for C2: two matching rules with limits 60 and 45 — the
resolved limit is their minimum 45. -/
theorem c2_daily_limit_min_witness :
    demoDb.devices.find? (fun d => d.id == 1) = some demoDevice
    ∧ demoDb.users.find? (fun u => u.id == demoDevice.childId) = some demoChild
    ∧ List.lookup "daily_limit_minutes" (computeCurrentRules demoDb 1 secondsPerDay)
        = some (JVal.i 45) := by
  refine ⟨rfl, rfl, ?_⟩
  rw [c2_daily_limit_min demoDb 1 secondsPerDay demoDevice demoChild rfl rfl]
  rfl

/-- C5 (amended) -- policy resolution returns the empty record with
`day_type = "unknown"` when the `Device` row is absent, and also when
the device's child `User` row is absent; a revoked device with an
existing child is resolved normally (the `status` column is only
enforced by the authentication layer, `get_device_by_token`). -/
theorem c5_empty_on_missing (db : Db) (deviceId now : Nat)
    (h : db.devices.find? (fun d => d.id == deviceId) = none
      ∨ ∃ device, db.devices.find? (fun d => d.id == deviceId) = some device
          ∧ db.users.find? (fun u => u.id == device.childId) = none) :
    computeCurrentRules db deviceId now = emptyResult := by
  rcases h with h | ⟨device, hdev, hchild⟩
  · simp only [computeCurrentRules, h]
  · simp only [computeCurrentRules, hdev, hchild]

/-- Witness for C5's amended theorem: an unknown device id on an empty
database yields the empty record. -/
theorem c5_empty_on_missing_witness :
    (Db.mk [] [] [] [] [] [] []).devices.find? (fun d => d.id == 1) = none
    ∧ computeCurrentRules (Db.mk [] [] [] [] [] [] []) 1 0 = emptyResult :=
  ⟨rfl, c5_empty_on_missing _ 1 0 (Or.inl rfl)⟩

/-- Counterexample to C5 as stated: a device whose `status` is
"revoked" but whose child exists is resolved normally —
`_compute_current_rules` never reads `Device.status`, so the result has
`day_type = "weekday"` rather than the claimed empty record with
`day_type = "unknown"`. -/
theorem c5_revoked_not_empty_counterexample :
    demoDevice.status = "revoked"
    ∧ demoDb.devices.find? (fun d => d.id == 1) = some demoDevice
    ∧ List.lookup "day_type" (computeCurrentRules demoDb 1 secondsPerDay)
        = some (JVal.s "weekday")
    ∧ List.lookup "day_type" emptyResult = some (JVal.s "unknown")
    ∧ computeCurrentRules demoDb 1 secondsPerDay ≠ emptyResult := by
  refine ⟨rfl, rfl, rfl, rfl, ?_⟩
  intro h
  have e1 : List.lookup "day_type" (computeCurrentRules demoDb 1 secondsPerDay)
      = some (JVal.s "weekday") := rfl
  rw [h] at e1
  have e2 : List.lookup "day_type" emptyResult = some (JVal.s "unknown") := rfl
  rw [e2] at e1
  injection e1 with e1
  injection e1 with e1
  exact absurd e1 (by decide)

/-- C8 -- the empty record contains no `totp_config` key at all, while
every successfully computed record has a `totp_config` key as its ninth
entry — null unless the child has TOTP enabled with a non-empty secret.
The two outcomes differ in shape, not only in values. -/
theorem c8_totp_config_key_shape :
    "totp_config" ∉ emptyResult.map Prod.fst
    ∧ ∀ (db : Db) (deviceId now : Nat) (device : Device) (child : ChildUser),
        db.devices.find? (fun d => d.id == deviceId) = some device →
        db.users.find? (fun u => u.id == device.childId) = some child →
        ((computeCurrentRules db deviceId now).map Prod.fst
            = ["day_type", "time_windows", "group_limits", "daily_limit_minutes",
               "remaining_minutes", "active_tans", "coupled_devices",
               "shared_budget", "totp_config"]
          ∧ (child.totpEnabled = false ∨ child.totpSecret = none
              ∨ child.totpSecret = some "" →
              List.lookup "totp_config" (computeCurrentRules db deviceId now)
                = some JVal.null)) := by
  constructor
  · decide
  · intro db deviceId now device child hdev hchild
    constructor
    · simp only [computeCurrentRules, hdev, hchild, List.map]
    · intro hcase
      simp only [computeCurrentRules, hdev, hchild]
      rw [lookup_totp_config]
      rcases hcase with hE | hS | hS
      · cases hsec : child.totpSecret with
        | none => rfl
        | some s => simp [hE]
      · rw [hS]
      · rw [hS]
        simp

/-- Witness for C8: on the demo database the computed record has the
nine keys ending in `totp_config`, and the demo child has TOTP disabled
so the value is null. -/
theorem c8_totp_config_key_shape_witness :
    demoDb.devices.find? (fun d => d.id == 1) = some demoDevice
    ∧ (computeCurrentRules demoDb 1 secondsPerDay).map Prod.fst
        = ["day_type", "time_windows", "group_limits", "daily_limit_minutes",
           "remaining_minutes", "active_tans", "coupled_devices",
           "shared_budget", "totp_config"]
    ∧ List.lookup "totp_config" (computeCurrentRules demoDb 1 secondsPerDay)
        = some JVal.null := by
  refine ⟨rfl, ?_, ?_⟩
  · exact (c8_totp_config_key_shape.2 demoDb 1 secondsPerDay demoDevice demoChild
      rfl rfl).1
  · exact (c8_totp_config_key_shape.2 demoDb 1 secondsPerDay demoDevice demoChild
      rfl rfl).2 (Or.inl rfl)

end Heimdall
